import Mathlib

/-!
Verification of the `pr_agent.py` pipeline: a single-pass script that
resolves a pull-request number from the environment, fetches the PR diff,
calls an Ollama inference endpoint, parses the model's JSON reply and posts
a formatted review comment.  The Python source is shallowly embedded below:
pure fragments become Lean functions, the module-level control flow becomes
a function from the environment and the external world to a trace of
observable events, and Python exceptions become `Option`/`Except` values.
-/

namespace PrAgent

/-- JSON values as produced by `json.loads`.  Numbers are modelled as
integers; the pipeline never relies on fractional values, and a numeral
with a fractional or exponent part is treated as a parse failure. -/
inductive Json where
  | null
  | bool (b : Bool)
  | num (n : Int)
  | str (s : String)
  | arr (elems : List Json)
  | obj (members : List (String × Json))

/-- Build a string from a list of characters. -/
def asString (l : List Char) : String := ⟨l⟩

/-- JSON whitespace, as accepted by Python's `json` module. -/
def isWsChar (c : Char) : Bool := c = ' ' || c = '\t' || c = '\n' || c = '\r'

/-- Drop leading JSON whitespace. -/
def skipWs : List Char → List Char
  | [] => []
  | c :: cs => if isWsChar c then skipWs cs else c :: cs

/-- Value of a hexadecimal digit, for `\uXXXX` string escapes. -/
def hexVal (c : Char) : Option Nat :=
  if c.isDigit then some (c.toNat - 48)
  else if 'a' ≤ c && c ≤ 'f' then some (c.toNat - 87)
  else if 'A' ≤ c && c ≤ 'F' then some (c.toNat - 55)
  else none

/-- Simple character escapes accepted inside JSON strings. -/
def escChar (c : Char) : Option Char :=
  if c = '"' then some '"'
  else if c = '\\' then some '\\'
  else if c = '/' then some '/'
  else if c = 'b' then some (Char.ofNat 8)
  else if c = 'f' then some (Char.ofNat 12)
  else if c = 'n' then some '\n'
  else if c = 'r' then some '\r'
  else if c = 't' then some '\t'
  else none

/-- Parse the body of a JSON string after the opening quote; returns the
decoded characters and the input following the closing quote. -/
def parseStrBody : List Char → Option (List Char × List Char)
  | [] => none
  | c :: cs =>
    if c = '"' then some ([], cs)
    else if c = '\\' then
      match cs with
      | [] => none
      | e :: cs2 =>
        if e = 'u' then
          match cs2 with
          | a :: b :: c3 :: d :: cs3 =>
            match hexVal a, hexVal b, hexVal c3, hexVal d with
            | some x, some y, some z, some w =>
              (parseStrBody cs3).map
                (fun p => (Char.ofNat (((x * 16 + y) * 16 + z) * 16 + w) :: p.1, p.2))
            | _, _, _, _ => none
          | _ => none
        else
          match escChar e with
          | some ec => (parseStrBody cs2).map (fun p => (ec :: p.1, p.2))
          | none => none
    else (parseStrBody cs).map (fun p => (c :: p.1, p.2))

/-- Take a maximal run of decimal digits. -/
def takeDigits : List Char → List Char × List Char
  | [] => ([], [])
  | c :: cs =>
    if c.isDigit then
      let p := takeDigits cs
      (c :: p.1, p.2)
    else ([], c :: cs)

/-- Numeric value of a digit run. -/
def digitsToNat (l : List Char) : Nat :=
  l.foldl (fun a c => a * 10 + (c.toNat - 48)) 0

/-- A JSON integer numeral: nonempty digits, no redundant leading zero. -/
def validDigits : List Char → Bool
  | [] => false
  | [c] => c.isDigit
  | c :: _ :: _ => c.isDigit && c ≠ '0'

/-- Does the remainder start a fractional or exponent part?  Such numerals
are outside the integer fragment modelled here. -/
def startsFrac : List Char → Bool
  | [] => false
  | c :: _ => c = '.' || c = 'e' || c = 'E'

/-- Parse a JSON integer numeral token. -/
def parseNumTok (l : List Char) : Option (Json × List Char) :=
  match l with
  | '-' :: rest =>
    let p := takeDigits rest
    if validDigits p.1 && !startsFrac p.2 then
      some (.num (-(digitsToNat p.1 : Int)), p.2)
    else none
  | _ =>
    let p := takeDigits l
    if validDigits p.1 && !startsFrac p.2 then
      some (.num (digitsToNat p.1 : Int), p.2)
    else none

mutual

/-- Recursive-descent JSON value parser (fuel-indexed so that the
recursion is structural and kernel-computable). -/
def parseVal : Nat → List Char → Option (Json × List Char)
  | 0, _ => none
  | fuel + 1, l =>
    match skipWs l with
    | [] => none
    | c :: cs =>
      if c = 'n' then
        match cs with
        | 'u' :: 'l' :: 'l' :: r => some (.null, r)
        | _ => none
      else if c = 't' then
        match cs with
        | 'r' :: 'u' :: 'e' :: r => some (.bool true, r)
        | _ => none
      else if c = 'f' then
        match cs with
        | 'a' :: 'l' :: 's' :: 'e' :: r => some (.bool false, r)
        | _ => none
      else if c = '"' then
        (parseStrBody cs).map (fun p => (.str (asString p.1), p.2))
      else if c = '[' then
        match skipWs cs with
        | ']' :: r => some (.arr [], r)
        | cs2 => parseElems fuel cs2 []
      else if c = Char.ofNat 123 then
        match skipWs cs with
        | [] => none
        | c2 :: r =>
          if c2 = Char.ofNat 125 then some (.obj [], r)
          else parseMembers fuel (c2 :: r) []
      else parseNumTok (c :: cs)

/-- Parse the elements of a JSON array after the opening bracket. -/
def parseElems : Nat → List Char → List Json → Option (Json × List Char)
  | 0, _, _ => none
  | fuel + 1, l, acc =>
    match parseVal fuel l with
    | none => none
    | some (v, r) =>
      match skipWs r with
      | ',' :: r2 => parseElems fuel r2 (acc ++ [v])
      | ']' :: r2 => some (.arr (acc ++ [v]), r2)
      | _ => none

/-- Parse the members of a JSON object after the opening brace. -/
def parseMembers : Nat → List Char → List (String × Json) →
    Option (Json × List Char)
  | 0, _, _ => none
  | fuel + 1, l, acc =>
    match skipWs l with
    | '"' :: cs =>
      match parseStrBody cs with
      | none => none
      | some (k, r) =>
        match skipWs r with
        | ':' :: r2 =>
          match parseVal fuel r2 with
          | none => none
          | some (v, r3) =>
            match skipWs r3 with
            | ',' :: r4 => parseMembers fuel r4 (acc ++ [(asString k, v)])
            | c4 :: r4 =>
              if c4 = Char.ofNat 125 then
                some (.obj (acc ++ [(asString k, v)]), r4)
              else none
            | [] => none
        | _ => none
    | _ => none

end

/-- `json.loads`: parse a complete JSON document, requiring only
whitespace after the value. -/
def parseJson (s : String) : Option Json :=
  match parseVal (s.data.length + 1) s.data with
  | some (v, r) => if (skipWs r).isEmpty then some v else none
  | none => none

/-- Python `dict.get` on a parsed JSON object: later duplicate keys
shadow earlier ones, as in the `dict` built by `json.loads`. -/
def pyGet (kvs : List (String × Json)) (k : String) : Option Json :=
  kvs.foldl (fun acc p => if p.1 = k then some p.2 else acc) none

/-- Python truthiness of a parsed JSON value. -/
def jsonTruthy : Json → Bool
  | .null => false
  | .bool b => b
  | .num n => n ≠ 0
  | .str s => !s.data.isEmpty
  | .arr l => !l.isEmpty
  | .obj kvs => !kvs.isEmpty

end PrAgent

namespace PrAgent

/-- Whitespace stripped by Python's `str.strip`. -/
def isPyWs (c : Char) : Bool :=
  c = ' ' || c = '\t' || c = '\n' || c = '\r' || c = Char.ofNat 11 || c = Char.ofNat 12

/-- `str.strip()`: drop leading and trailing whitespace. -/
def trimChars (l : List Char) : List Char :=
  ((l.dropWhile isPyWs).reverse.dropWhile isPyWs).reverse

/-- `str.strip()` on strings. -/
def pyStrip (s : String) : String := asString (trimChars s.data)

/-- `str.replace`: replace every non-overlapping occurrence of `pat`,
scanning left to right.  Fuel-indexed (one unit per consumed character)
so the recursion is structural. -/
def replaceFuel : Nat → List Char → List Char → List Char → List Char
  | 0, l, _, _ => l
  | _ + 1, [], _, _ => []
  | fuel + 1, x :: xs, pat, rep =>
    if pat.isPrefixOf (x :: xs) && !pat.isEmpty then
      rep ++ replaceFuel fuel (List.drop pat.length (x :: xs)) pat rep
    else x :: replaceFuel fuel xs pat rep

/-- `str.replace` on strings (our patterns are always nonempty). -/
def pyReplace (s pat rep : String) : String :=
  asString (replaceFuel (s.data.length + 1) s.data pat.data rep.data)

/-- Line 87: `result_text.strip().replace('```json', '').replace('```', '')`. -/
def cleanFences (s : String) : String :=
  pyReplace (pyReplace (pyStrip s) ("```json") ("")) ("```") ("")

/-- `str.split(sep)` for a one-character separator: `n` separators yield
`n + 1` fields. -/
def pySplitChars : List Char → Char → List (List Char)
  | [], _ => [[]]
  | x :: xs, c =>
    if x = c then [] :: pySplitChars xs c
    else
      match pySplitChars xs c with
      | h :: t => (x :: h) :: t
      | [] => [[x]]

/-- A nonempty, all-decimal-digit character run. -/
def allDigits (l : List Char) : Bool := !l.isEmpty && l.all Char.isDigit

/-- Python `int(str)`: strip whitespace, optional sign, decimal digits;
anything else raises `ValueError` (modelled as `none`).  Underscore
digit separators are not modelled. -/
def pyIntChars (l : List Char) : Option Int :=
  match trimChars l with
  | [] => none
  | c :: ds =>
    if c = '-' then (if allDigits ds then some (-(digitsToNat ds : Int)) else none)
    else if c = '+' then (if allDigits ds then some ((digitsToNat ds : Int)) else none)
    else if allDigits (c :: ds) then some ((digitsToNat (c :: ds) : Int)) else none

mutual

/-- Python `repr` of a parsed-JSON value, as produced inside f-strings for
containers (string escaping inside `repr` is not modelled). -/
def pyRepr : Json → String
  | .null => "None"
  | .bool true => "True"
  | .bool false => "False"
  | .num n => toString n
  | .str s => "'" ++ s ++ "'"
  | .arr l => "[" ++ pyReprElems l ++ "]"
  | .obj kvs => "\x7b" ++ pyReprMembers kvs ++ "\x7d"

/-- Comma-separated `repr` of list elements. -/
def pyReprElems : List Json → String
  | [] => ""
  | [x] => pyRepr x
  | x :: y :: t => pyRepr x ++ ", " ++ pyReprElems (y :: t)

/-- Comma-separated `repr` of dict members. -/
def pyReprMembers : List (String × Json) → String
  | [] => ""
  | [(k, v)] => "'" ++ k ++ "': " ++ pyRepr v
  | (k, v) :: y :: t => "'" ++ k ++ "': " ++ pyRepr v ++ ", " ++ pyReprMembers (y :: t)

end

/-- Python `str()` of a parsed-JSON value, as interpolated by f-strings. -/
def pyStr : Json → String
  | .str s => s
  | v => pyRepr v

/-- F-string interpolation of an optional string (an unset environment
variable or an absent patch is `None` and renders as `"None"`). -/
def pyStrOpt : Option String → String
  | none => "None"
  | some s => s

/-- One changed file reported by the hosting platform; `patch` is absent
for e.g. binary or renamed files. -/
structure ChangedFile where
  filename : String
  patch : Option String

/-- Line 60: the per-file block of the diff text. -/
def fileEntry (f : ChangedFile) : String :=
  "File: " ++ f.filename ++ "\nDiff:\n" ++ pyStrOpt f.patch ++ "\n---"

/-- `sep.join(parts)`. -/
def joinSep (sep : String) : List String → String
  | [] => ""
  | [x] => x
  | x :: y :: t => x ++ sep ++ joinSep sep (y :: t)

/-- Line 60: `"\n\n".join(...)` over the changed files. -/
def diffContent (files : List ChangedFile) : String :=
  joinSep ("\n\n") (files.map fileEntry)

/-- Lines 62-66: `FULL_PROMPT`. -/
def fullPrompt (title : String) (files : List ChangedFile) : String :=
  "PR Title: " ++ title ++
    "\n--------------------------------------------------\nCODE DIFF TO REVIEW:\n" ++
    diffContent files ++ "\n"

/-- Warning printed when the event-payload fallback raises (line 36); the
interpolated exception detail is not modelled. -/
def warnEventMsg : String := "WARNING: Could not parse GITHUB_EVENT_PATH payload."

/-- Line 39. -/
def criticalNoPrMsg : String :=
  "CRITICAL: Failed to retrieve PR number from both GITHUB_REF and event payload. Exiting."

/-- Line 124. -/
def failureMsg : String := "FAILURE: AI agent failed to generate and post a review."

/-- Line 122. -/
def successPostMsg : String := "SUCCESS: AI review comment posted to PR."

/-- Line 92: the distinguishing prefix put on every caught inference
failure; the interpolated exception text is the argument. -/
def llmErr (s : String) : String := "CRITICAL LLM ERROR: " ++ s

/-- Outcome of parsing `GITHUB_REF` (lines 22-27): either the guard on
line 25 was false and nothing was attempted, or an `int` was extracted,
or `int()`/indexing raised (`ValueError`/`IndexError`). -/
inductive RefParse where
  | noAttempt
  | parsed (n : Int)
  | parseError
  deriving DecidableEq

/-- Lines 25-26: the primary `GITHUB_REF` parse. -/
def parseGithubRef : Option String → RefParse
  | none => .noAttempt
  | some s =>
    if s.data.isEmpty then .noAttempt
    else if ("refs/pull/").data.isPrefixOf s.data then
      match (pySplitChars s.data '/')[2]? with
      | none => .parseError
      | some seg =>
        match pyIntChars seg with
        | some n => .parsed n
        | none => .parseError
    else .noAttempt

/-- Lines 29-36: the `GITHUB_EVENT_PATH` fallback.  The argument is
`none` when the path is unset or the file is missing, `some none` when
the file exists but any step inside the inner `try` raises, and
`some (some payload)` when `json.load` yields `payload`.  Returns the
resolved value and the printed warnings. -/
def fallbackNumber : Option (Option Json) → Option Json × List String
  | none => (none, [])
  | some none => (none, [warnEventMsg])
  | some (some payload) =>
    match payload with
    | .obj kvs =>
      match pyGet kvs ("pull_request") with
      | none => (none, [])
      | some (.obj kvs2) => (pyGet kvs2 ("number"), [])
      | some _ => (none, [warnEventMsg])
    | _ => (none, [warnEventMsg])

/-- Lines 19-36: the whole `pr_number` resolution.  The fallback runs
only when the primary parse raised (`except (IndexError, ValueError)`). -/
def resolvePR (ref : Option String) (eventFile : Option (Option Json)) :
    Option Json × List String :=
  match parseGithubRef ref with
  | .parsed n => (some (.num n), [])
  | .noAttempt => (none, [])
  | .parseError => fallbackNumber eventFile

/-- Result of the one `requests.post` call: a transport-level failure
(including timeout), or a response with a status code and body. -/
inductive HttpOutcome where
  | netErr (msg : String)
  | resp (status : Nat) (body : String)

/-- Line 89: strip fences and `json.loads` the model text. -/
def parseResultText (s : String) : Option Json × List String :=
  match parseJson (cleanFences s) with
  | some v => (some v, [])
  | none => (none, [llmErr ("JSONDecodeError")])

/-- Lines 68-93, `run_ollama_agent`: every raised exception is caught by
the `except Exception` on line 91 and becomes `none` plus one printed
message with the `CRITICAL LLM ERROR:` prefix.  `raise_for_status`
raises exactly for status codes 400-599. -/
def runOllamaAgent : HttpOutcome → Option Json × List String
  | .netErr m => (none, [llmErr m])
  | .resp status body =>
    if 400 ≤ status && status < 600 then (none, [llmErr ("HTTPError")])
    else
      match parseJson body with
      | none => (none, [llmErr ("JSONDecodeError")])
      | some (.obj kvs) =>
        match pyGet kvs ("response") with
        | none => parseResultText ("")
        | some (.str s) => parseResultText s
        | some _ => (none, [llmErr ("AttributeError")])
      | some _ => (none, [llmErr ("AttributeError")])

/-- Line 113: `review_result.get('summary', 'N/A')`. -/
def summaryVal (kvs : List (String × Json)) : Json :=
  (pyGet kvs ("summary")).getD (.str ("N/A"))

/-- Lines 101-103: the `security_risks` list with its placeholder default
(`None` from a missing key is not a list, so it also defaults). -/
def risksList (kvs : List (String × Json)) : List Json :=
  match pyGet kvs ("security_risks") with
  | some (.arr l) => if l.isEmpty then [.str ("None found.")] else l
  | _ => [.str ("None found.")]

/-- Lines 105-107: the `suggestions` list with its placeholder default. -/
def suggestionsList (kvs : List (String × Json)) : List Json :=
  match pyGet kvs ("suggestions") with
  | some (.arr l) => if l.isEmpty then [.str ("No specific suggestions.")] else l
  | _ => [.str ("No specific suggestions.")]

/-- Lines 114-115: `''.join([f'<li>{item}</li>' for item in ...])`. -/
def itemsHtml : List Json → String
  | [] => ""
  | j :: t => "<li>" ++ pyStr j ++ "</li>" ++ itemsHtml t

/-- Lines 109-118: `comment_body`, for a dict result. -/
def commentBody (model : Option String) (kvs : List (String × Json)) : String :=
  "## 🤖 AI Code Review Summary\n\n| Field | Details |\n| :--- | :--- |\n| **Summary** | " ++
    pyStr (summaryVal kvs) ++
    " |\n| **Security Risks** | <ul>" ++ itemsHtml (risksList kvs) ++
    "</ul> |\n| **Suggestions** | <ul>" ++ itemsHtml (suggestionsList kvs) ++
    "</ul> |\n\n---\n*Review powered by " ++ pyStrOpt model ++ "*"

/-- Lines 98-118: the comment-formatting step.  `.get` is a dict method,
so a non-dict result raises `AttributeError` (modelled as `.error`),
which nothing in the script catches. -/
def formatStep (model : Option String) (v : Json) : Except Unit String :=
  match v with
  | .obj kvs => .ok (commentBody model kvs)
  | _ => .error ()

/-- The environment variables the script consumes (each may be unset). -/
structure Env where
  ollamaModel : Option String
  githubRef : Option String
  eventFile : Option (Option Json)

/-- The external world: the PR title and changed files the platform
reports, and the outcome of the one inference HTTP call. -/
structure World where
  prTitle : String
  files : List ChangedFile
  http : HttpOutcome

/-- Observable events of one run: network calls, printed lines, the
process exit code, and an uncaught exception. -/
inductive Event where
  | netGetRepo
  | netGetPull
  | netGetFiles
  | netInference
  | netPostComment (body : String)
  | msg (s : String)
  | exitCode (code : Nat)
  | uncaught
  deriving DecidableEq

/-- Which events are calls to an external service over the network. -/
def isNetworkEvent : Event → Bool
  | .netGetRepo => true
  | .netGetPull => true
  | .netGetFiles => true
  | .netInference => true
  | .netPostComment _ => true
  | _ => false

/-- Number of network calls in a trace. -/
def netCalls (tr : List Event) : Nat := (tr.filter isNetworkEvent).length

/-- Lines 96-124: act on the agent result (`if review_result:`). -/
def postReview (env : Env) (res : Option Json) : List Event :=
  match res with
  | some v =>
    if jsonTruthy v then
      match formatStep env.ollamaModel v with
      | .ok body => [.netPostComment body, .msg successPostMsg, .exitCode 0]
      | .error _ => [.uncaught]
    else [.msg failureMsg, .exitCode 0]
  | none => [.msg failureMsg, .exitCode 0]

/-- The module-level control flow of `pr_agent.py` as an event trace.
`repo = g.get_repo(...)` on line 15 performs a network read before any
PR-number resolution; resolution failure exits with status 1 (line 40);
otherwise the PR object and its files are fetched, the inference call is
made, and the result is posted or the failure message printed. -/
def scriptRun (env : Env) (w : World) : List Event :=
  Event.netGetRepo ::
    ((resolvePR env.githubRef env.eventFile).2.map Event.msg) ++
      match (resolvePR env.githubRef env.eventFile).1 with
      | some v =>
        if jsonTruthy v then
          Event.netGetPull ::
            Event.msg ("Successfully retrieved PR #" ++ pyStr v ++ " for review.") ::
              Event.netGetFiles ::
                Event.netInference ::
                  ((runOllamaAgent w.http).2.map Event.msg) ++
                    postReview env (runOllamaAgent w.http).1
        else [Event.msg criticalNoPrMsg, Event.exitCode 1]
      | none => [Event.msg criticalNoPrMsg, Event.exitCode 1]

/-- Did resolution produce a truthy `pr_number` (the line 38 test)? -/
def resolvedTruthy (env : Env) : Bool :=
  match (resolvePR env.githubRef env.eventFile).1 with
  | some v => jsonTruthy v
  | none => false

/-- Number of positions at which `pat` occurs in `l`. -/
def occCount : List Char → List Char → Nat
  | [], pat => if pat.isEmpty then 1 else 0
  | c :: cs, pat => (if pat.isPrefixOf (c :: cs) then 1 else 0) + occCount cs pat

/-- The `security_risks` placeholder text, as a character list. -/
def patNF : List Char := ("None found.").data

end PrAgent

namespace PrAgent

set_option maxRecDepth 8000

theorem data_append (a b : String) : (a ++ b).data = a.data ++ b.data := rfl

theorem asString_data (l : List Char) : (asString l).data = l := rfl

theorem asString_of_data (s : String) : asString s.data = s := rfl

theorem isPrefixOf_append_self : ∀ (l t : List Char), l.isPrefixOf (l ++ t) = true
  | [], _ => by simp [List.isPrefixOf]
  | c :: cs, t => by
    simp [List.isPrefixOf, isPrefixOf_append_self cs t]

theorem dropWhile_eq_self_of (p : Char → Bool) :
    ∀ (l : List Char), (∀ c ∈ l, p c = false) → l.dropWhile p = l
  | [], _ => rfl
  | c :: cs, h => by
    have hc := h c (by simp)
    simp [List.dropWhile_cons, hc]

theorem trimChars_eq_self (l : List Char) (h : ∀ c ∈ l, isPyWs c = false) :
    trimChars l = l := by
  unfold trimChars
  rw [dropWhile_eq_self_of _ l h,
    dropWhile_eq_self_of _ l.reverse (fun c hc => h c (List.mem_reverse.mp hc)),
    List.reverse_reverse]

theorem pySplit_append (c : Char) :
    ∀ (l r : List Char), c ∉ l → pySplitChars (l ++ c :: r) c = l :: pySplitChars r c
  | [], r, _ => by simp [pySplitChars]
  | x :: xs, r, h => by
    have hx : ¬x = c := fun e => h (by simp [e])
    have ih := pySplit_append c xs r (fun m => h (List.mem_cons_of_mem _ m))
    simp [pySplitChars, hx, ih]

theorem filter_net_map_msg (l : List String) :
    (l.map Event.msg).filter isNetworkEvent = [] := by
  induction l with
  | nil => rfl
  | cons x t ih => simp [isNetworkEvent, ih]

theorem getLast?_append_pair {α : Type} (l : List α) (x y : α) :
    (l ++ [x, y]).getLast? = some y := by
  rw [show l ++ [x, y] = (l ++ [x]) ++ [y] by simp]
  exact List.getLast?_concat _

theorem digit_not_ws (c : Char) (h : c.isDigit = true) : isPyWs c = false := by
  cases hw : isPyWs c with
  | false => rfl
  | true =>
    exfalso
    simp only [isPyWs, Bool.or_eq_true, decide_eq_true_eq] at hw
    rcases hw with ((((hc | hc) | hc) | hc) | hc) | hc <;> subst hc <;>
      exact absurd h (by decide)

theorem digit_ne_signs (c : Char) (h : c.isDigit = true) :
    ¬c = '/' ∧ ¬c = '-' ∧ ¬c = '+' := by
  refine ⟨?_, ?_, ?_⟩ <;> rintro rfl <;> exact absurd h (by decide)

theorem pyIntChars_digits (ds : List Char) (hne : ds ≠ [])
    (hdig : ∀ c ∈ ds, c.isDigit = true) :
    pyIntChars ds = some ((digitsToNat ds : Int)) := by
  have hws : ∀ c ∈ ds, isPyWs c = false := fun c hc => digit_not_ws c (hdig c hc)
  obtain ⟨d, ds', rfl⟩ : ∃ d ds', ds = d :: ds' := by
    cases ds with
    | nil => exact absurd rfl hne
    | cons d t => exact ⟨d, t, rfl⟩
  have hd := hdig d (by simp)
  have hall : allDigits (d :: ds') = true := by
    simp [allDigits, List.all_eq_true]
    exact ⟨hdig d (by simp), fun x hx => hdig x (by simp [hx])⟩
  simp [pyIntChars, trimChars_eq_self _ hws, (digit_ne_signs d hd).2.1,
    (digit_ne_signs d hd).2.2, hall]

/-- C7: for every reference string of the shape `refs/pull/<N>/...` with
`N` a decimal numeral, the resolver yields the PR number `N` (the value
of the numeral), regardless of the fallback payload. -/
theorem spec_c7_refMatch (ds : List Char) (rest : String) (ev : Option (Option Json))
    (hne : ds ≠ []) (hdig : ∀ c ∈ ds, c.isDigit = true) :
    resolvePR (some ("refs/pull/" ++ asString ds ++ "/" ++ rest)) ev =
      (some (.num (digitsToNat ds)), []) := by
  have e1 : ("refs/pull/").data =
      'r' :: 'e' :: 'f' :: 's' :: '/' :: 'p' :: 'u' :: 'l' :: 'l' :: '/' :: [] := by decide
  have hdata : ("refs/pull/" ++ asString ds ++ "/" ++ rest).data =
      ("refs/pull/").data ++ (ds ++ '/' :: rest.data) := by
    simp [data_append, asString_data]
  have hds : '/' ∉ ds := fun hm => absurd (hdig _ hm) (by decide)
  have e4 : ("refs/pull/").data ++ (ds ++ '/' :: rest.data) =
      ("refs").data ++ '/' :: (("pull").data ++ '/' :: (ds ++ '/' :: rest.data)) := by
    rw [e1]
    rfl
  have hemp : (("refs/pull/").data ++ (ds ++ '/' :: rest.data)).isEmpty = false := by
    rw [e1]
    rfl
  have href : parseGithubRef (some ("refs/pull/" ++ asString ds ++ "/" ++ rest)) =
      .parsed (digitsToNat ds) := by
    rw [parseGithubRef, hdata, hemp]
    rw [isPrefixOf_append_self]
    simp only [Bool.false_eq_true, if_false, if_true]
    rw [e4, pySplit_append '/' (("refs").data) _ (by decide),
      pySplit_append '/' (("pull").data) _ (by decide),
      pySplit_append '/' ds rest.data hds]
    simp only [List.getElem?_cons_succ, List.getElem?_cons_zero]
    rw [pyIntChars_digits ds hne hdig]
  rw [resolvePR, href]

/-- Witness for C7 at the spec's example `refs/pull/42/merge`. -/
theorem spec_c7_refMatch_witness :
    (("42").data ≠ [] ∧ ∀ c ∈ ("42").data, c.isDigit = true) ∧
    resolvePR (some ("refs/pull/" ++ asString (("42").data) ++ "/" ++ "merge")) none =
      (some (.num (digitsToNat (("42").data))), []) :=
  ⟨⟨by decide, by decide⟩,
    spec_c7_refMatch (("42").data) ("merge") none (by decide) (by decide)⟩

/-- The fallback event payload used in C1. -/
def payload7 : Json := .obj [("pull_request", .obj [("number", .num 7)])]

/-- C1 as stated is false: for a reference that is absent, or that merely
lacks the `refs/pull/` prefix, no exception is raised, so the fallback is
never consulted and the resolver yields nothing rather than 7. -/
theorem spec_c1_counterexample :
    resolvePR (some ("main")) (some (some payload7)) = (none, []) ∧
    resolvePR none (some (some payload7)) = (none, []) ∧
    ((none : Option Json) = some (.num 7) → False) :=
  ⟨rfl, rfl, fun h => Option.noConfusion h⟩

/-- C1 amended: the fallback is consulted only when the primary parse
raises (the reference starts with `refs/pull/` but its numeric segment is
invalid); in that case, with the valid fallback payload supplied, the
resolver yields PR number 7. -/
theorem spec_c1_amended (ref : String)
    (h : parseGithubRef (some ref) = .parseError) :
    resolvePR (some ref) (some (some payload7)) = (some (.num 7), []) := by
  rw [resolvePR, h]
  rfl

/-- Witness for the amended C1 at `refs/pull/abc/merge`. -/
theorem spec_c1_amended_witness :
    parseGithubRef (some ("refs/pull/abc/merge")) = RefParse.parseError ∧
    resolvePR (some ("refs/pull/abc/merge")) (some (some payload7)) =
      (some (.num 7), []) :=
  ⟨by decide, spec_c1_amended ("refs/pull/abc/merge") (by decide)⟩

/-- An environment with no usable reference and no event payload. -/
def envNoRef : Env := ⟨some ("llama3"), none, none⟩

/-- A world whose inference call would fail (never reached in C2). -/
def worldIdle : World := ⟨"t", [], .netErr ("unused")⟩

/-- C2 as stated is false: when neither resolution path yields a PR
number the run does exit with failure, but `repo = g.get_repo(...)` on
line 15 has already performed one network call, not zero. -/
theorem spec_c2_counterexample :
    netCalls (scriptRun envNoRef worldIdle) = 1 ∧
    netCalls (scriptRun envNoRef worldIdle) ≠ 0 ∧
    (scriptRun envNoRef worldIdle).getLast? = some (.exitCode 1) :=
  ⟨by decide, by decide, by decide⟩

/-- C2 amended: whenever neither resolution path yields a (truthy) PR
number, the run terminates immediately with exit status 1, with no
comment posted, no inference call and no uncaught fault — but with
exactly one network call already performed (the initial repository
fetch, which precedes resolution), rather than zero. -/
theorem spec_c2_amended (env : Env) (w : World)
    (h : resolvedTruthy env = false) :
    netCalls (scriptRun env w) = 1 ∧
    (scriptRun env w).getLast? = some (.exitCode 1) ∧
    (∀ b, Event.netPostComment b ∉ scriptRun env w) ∧
    Event.netInference ∉ scriptRun env w ∧
    Event.uncaught ∉ scriptRun env w := by
  unfold resolvedTruthy at h
  unfold scriptRun
  rcases hres : (resolvePR env.githubRef env.eventFile).1 with _ | v
  · dsimp only
    refine ⟨?_, ?_, ?_, ?_, ?_⟩
    · simp [netCalls, List.filter_append, filter_net_map_msg, isNetworkEvent]
    · exact getLast?_append_pair _ _ _
    · intro b
      simp [List.mem_append, List.mem_map]
    · simp [List.mem_append, List.mem_map]
    · simp [List.mem_append, List.mem_map]
  · rw [hres] at h
    dsimp only at h ⊢
    simp only [h, Bool.false_eq_true, if_false]
    refine ⟨?_, ?_, ?_, ?_, ?_⟩
    · simp [netCalls, List.filter_append, filter_net_map_msg, isNetworkEvent]
    · exact getLast?_append_pair _ _ _
    · intro b
      simp [List.mem_append, List.mem_map]
    · simp [List.mem_append, List.mem_map]
    · simp [List.mem_append, List.mem_map]

/-- Witness for the amended C2 at a concrete failing environment. -/
theorem spec_c2_amended_witness :
    resolvedTruthy envNoRef = false ∧
    (netCalls (scriptRun envNoRef worldIdle) = 1 ∧
      (scriptRun envNoRef worldIdle).getLast? = some (.exitCode 1) ∧
      (∀ b, Event.netPostComment b ∉ scriptRun envNoRef worldIdle) ∧
      Event.netInference ∉ scriptRun envNoRef worldIdle ∧
      Event.uncaught ∉ scriptRun envNoRef worldIdle) :=
  ⟨by decide, spec_c2_amended envNoRef worldIdle (by decide)⟩

/-- C4 as stated is false: a changed file whose patch is absent is indeed
not an error, but the prompt embeds the four-character text `None` (the
f-string rendering of Python `None`), not the empty string. -/
theorem spec_c4_counterexample :
    diffContent [⟨("a.py"), none⟩] = "File: a.py\nDiff:\nNone\n---" ∧
    diffContent [⟨("a.py"), none⟩] ≠ diffContent [⟨("a.py"), some ("")⟩] :=
  ⟨rfl, by decide⟩

/-- C4 amended: a changed file with an absent patch is not an error; its
prompt block is exactly the block of a file whose patch text is the
string `None` — the interpolated rendering of the absent value — and not
that of an empty patch. -/
theorem spec_c4_amended (name : String) (t : String) (rest : List ChangedFile) :
    fileEntry ⟨name, none⟩ = fileEntry ⟨name, some ("None")⟩ ∧
    fullPrompt t (⟨name, none⟩ :: rest) =
      fullPrompt t (⟨name, some ("None")⟩ :: rest) ∧
    fileEntry ⟨name, none⟩ ≠ fileEntry ⟨name, some ("")⟩ := by
  refine ⟨rfl, rfl, ?_⟩
  intro h
  have hd := congrArg String.data h
  simp only [fileEntry, pyStrOpt, data_append, List.append_assoc] at hd
  have h2 := List.append_cancel_left hd
  have h3 := List.append_cancel_left h2
  exact absurd h3 (by decide)

/-- C8: formatting is deterministic — on a fixed parsed result and fixed
model name, the formatter is a pure function, so two formatting passes
produce byte-identical comment bodies. -/
theorem spec_c8_deterministic (m : Option String) (kvs : List (String × Json))
    (v : Json) :
    commentBody m kvs = commentBody m kvs ∧ formatStep m v = formatStep m v :=
  ⟨rfl, rfl⟩

/-- Does `security_risks` trigger the line 102 default (absent, not a
list, or empty)? -/
def needsRiskDefault (kvs : List (String × Json)) : Bool :=
  match pyGet kvs ("security_risks") with
  | some (.arr l) => l.isEmpty
  | _ => true

/-- Does `suggestions` trigger the line 106 default? -/
def needsSuggDefault (kvs : List (String × Json)) : Bool :=
  match pyGet kvs ("suggestions") with
  | some (.arr l) => l.isEmpty
  | _ => true

/-- An environment whose reference resolves to PR 42. -/
def envRef42 : Env := ⟨some ("llama3"), some ("refs/pull/42/merge"), none⟩

/-- A world whose model response text is the JSON array `[1]`. -/
def worldArr : World := ⟨"t", [], .resp 200 ("\x7b\"response\": \"[1]\"\x7d")⟩

/-- C3 as stated is false: the substitution of placeholders is real, but
the formatting step is not exception-free for every JSON value the parse
can produce — a truthy non-object parse result (here the array `[1]`)
reaches `review_result.get`, which raises an uncaught `AttributeError`,
crashing the run. -/
theorem spec_c3_counterexample :
    parseJson ("[1]") = some (.arr [.num 1]) ∧
    jsonTruthy (.arr [.num 1]) = true ∧
    formatStep (some ("llama3")) (.arr [.num 1]) = .error () ∧
    Event.uncaught ∈ scriptRun envRef42 worldArr :=
  ⟨rfl, rfl, rfl, by decide⟩

/-- C3 amended: for every *object* result the formatter never raises, and
the documented defaults hold: a missing `summary` renders as `N/A`, and
`security_risks` / `suggestions` that are absent, not a list, or empty
are replaced by their single-element placeholder lists.  (A truthy
non-object parse result instead crashes the formatting step.) -/
theorem spec_c3_amended (m : Option String) (kvs : List (String × Json)) :
    formatStep m (.obj kvs) = .ok (commentBody m kvs) ∧
    ((pyGet kvs ("summary")).isNone = true → pyStr (summaryVal kvs) = "N/A") ∧
    (needsRiskDefault kvs = true → risksList kvs = [.str ("None found.")]) ∧
    (needsSuggDefault kvs = true →
      suggestionsList kvs = [.str ("No specific suggestions.")]) := by
  refine ⟨rfl, ?_, ?_, ?_⟩
  · intro h
    unfold summaryVal
    rw [Option.isNone_iff_eq_none] at h
    rw [h]
    rfl
  · intro h
    unfold needsRiskDefault at h
    unfold risksList
    rcases hg : pyGet kvs ("security_risks") with _ | v
    · rfl
    · rw [hg] at h
      rcases v with _ | b | n | s | l | o <;> try rfl
      · dsimp only at h ⊢
        rw [h]
        rfl
  · intro h
    unfold needsSuggDefault at h
    unfold suggestionsList
    rcases hg : pyGet kvs ("suggestions") with _ | v
    · rfl
    · rw [hg] at h
      rcases v with _ | b | n | s | l | o <;> try rfl
      · dsimp only at h ⊢
        rw [h]
        rfl

/-- Witness for the amended C3 on the empty object (all fields absent). -/
theorem spec_c3_amended_witness :
    formatStep (some ("llama3")) (.obj []) =
      .ok (commentBody (some ("llama3")) []) ∧
    pyStr (summaryVal []) = "N/A" ∧
    risksList [] = [.str ("None found.")] ∧
    suggestionsList [] = [.str ("No specific suggestions.")] :=
  ⟨(spec_c3_amended (some ("llama3")) []).1,
    (spec_c3_amended (some ("llama3")) []).2.1 rfl,
    (spec_c3_amended (some ("llama3")) []).2.2.1 rfl,
    (spec_c3_amended (some ("llama3")) []).2.2.2 rfl⟩

/-- The three inference-failure kinds named by C6: a transport-level
error (including timeout), a non-success HTTP status (those for which
`raise_for_status` raises), or a response body that is not JSON. -/
def inferenceFailure : HttpOutcome → Prop
  | .netErr _ => True
  | .resp status body => (400 ≤ status ∧ status < 600) ∨ parseJson body = none

theorem agent_fails (h : HttpOutcome) (hf : inferenceFailure h) :
    ∃ e, runOllamaAgent h = (none, [llmErr e]) := by
  cases h with
  | netErr m => exact ⟨m, rfl⟩
  | resp status body =>
    unfold runOllamaAgent
    dsimp only
    by_cases hs : (400 ≤ status ∧ status < 600)
    · refine ⟨("HTTPError"), ?_⟩
      simp [hs.1, hs.2]
    · have hb : parseJson body = none := by
        rcases hf with h1 | h1
        · exact absurd h1 hs
        · exact h1
      have hcond : (decide (400 ≤ status) && decide (status < 600)) = false := by
        rcases (not_and_or.mp hs) with h1 | h1 <;> simp [h1]
      refine ⟨("JSONDecodeError"), ?_⟩
      simp [hcond, hb]

theorem resolvedTruthy_some (env : Env) (h : resolvedTruthy env = true) :
    ∃ v, (resolvePR env.githubRef env.eventFile).1 = some v ∧ jsonTruthy v = true := by
  unfold resolvedTruthy at h
  rcases hx : (resolvePR env.githubRef env.eventFile).1 with _ | v
  · rw [hx] at h
    exact absurd h (by simp)
  · rw [hx] at h
    exact ⟨v, rfl, h⟩

/-- C6: for every inference failure — network error (including timeout),
non-success HTTP status, or non-JSON-parseable response body — the
failure is caught and logged with the `CRITICAL LLM ERROR:` prefix, no
comment is posted, the visible failure message is printed, and the run
terminates normally (exit 0, no uncaught fault). -/
theorem spec_c6_inferenceFailure (env : Env) (w : World)
    (hres : resolvedTruthy env = true) (hfail : inferenceFailure w.http) :
    (∃ s, Event.msg s ∈ scriptRun env w ∧
      ("CRITICAL LLM ERROR: ").data.isPrefixOf s.data = true) ∧
    (∀ b, Event.netPostComment b ∉ scriptRun env w) ∧
    Event.msg failureMsg ∈ scriptRun env w ∧
    (scriptRun env w).getLast? = some (.exitCode 0) ∧
    Event.uncaught ∉ scriptRun env w := by
  obtain ⟨v, hv1, hv2⟩ := resolvedTruthy_some env hres
  obtain ⟨e, hagent⟩ := agent_fails w.http hfail
  unfold scriptRun
  rw [hv1]
  dsimp only
  rw [hv2]
  simp only [if_true]
  rw [hagent]
  dsimp only [postReview, List.map]
  refine ⟨⟨llmErr e, ?_, ?_⟩, ?_, ?_, ?_, ?_⟩
  · simp
  · unfold llmErr
    rw [data_append]
    exact isPrefixOf_append_self _ _
  · intro b
    simp [List.mem_append, List.mem_map]
  · simp
  · rw [← List.append_assoc, List.getLast?_append_cons]
    rfl
  · simp [List.mem_append, List.mem_map]

/-- Witness for C6 at a network timeout. -/
theorem spec_c6_inferenceFailure_witness :
    resolvedTruthy envRef42 = true ∧
    (let w : World := ⟨"t", [], .netErr ("ReadTimeout")⟩
    (∃ s, Event.msg s ∈ scriptRun envRef42 w ∧
      ("CRITICAL LLM ERROR: ").data.isPrefixOf s.data = true) ∧
    (∀ b, Event.netPostComment b ∉ scriptRun envRef42 w) ∧
    Event.msg failureMsg ∈ scriptRun envRef42 w ∧
    (scriptRun envRef42 w).getLast? = some (.exitCode 0) ∧
    Event.uncaught ∉ scriptRun envRef42 w) :=
  ⟨by decide, spec_c6_inferenceFailure envRef42 ⟨"t", [], .netErr ("ReadTimeout")⟩
    (by decide) trivial⟩

/-- C10: when the model's response text parses to the empty JSON object,
the parse itself succeeds, yet the run is treated as a failed review —
no comment is posted and the failure message is printed — because the
`if review_result:` truthiness test is false on an empty dict. -/
theorem spec_c10_emptyObject (env : Env) (w : World) (status : Nat)
    (body s : String)
    (hres : resolvedTruthy env = true)
    (hw : w.http = .resp status body)
    (hst : status < 400)
    (hbody : parseJson body = some (.obj [(("response"), .str s)]))
    (hinner : parseJson (cleanFences s) = some (.obj [])) :
    Event.msg failureMsg ∈ scriptRun env w ∧
    (∀ b, Event.netPostComment b ∉ scriptRun env w) ∧
    (scriptRun env w).getLast? = some (.exitCode 0) ∧
    Event.uncaught ∉ scriptRun env w := by
  obtain ⟨v, hv1, hv2⟩ := resolvedTruthy_some env hres
  have hagent : runOllamaAgent w.http = (some (.obj []), []) := by
    rw [hw]
    unfold runOllamaAgent
    dsimp only
    have hcond : (decide (400 ≤ status) && decide (status < 600)) = false := by
      simp [Nat.not_le.mpr hst]
    rw [hcond]
    simp only [Bool.false_eq_true, if_false]
    rw [hbody]
    dsimp only
    rw [show pyGet [(("response"), Json.str s)] ("response") = some (.str s) from rfl]
    dsimp only
    unfold parseResultText
    rw [hinner]
  unfold scriptRun
  rw [hv1]
  dsimp only
  rw [hv2]
  simp only [if_true]
  rw [hagent]
  dsimp only [postReview, List.map, jsonTruthy]
  simp only [List.isEmpty_nil, Bool.not_true, Bool.false_eq_true, if_false]
  refine ⟨?_, ?_, ?_, ?_⟩
  · simp
  · intro b
    simp [List.mem_append, List.mem_map]
  · rw [← List.append_assoc, List.getLast?_append_cons]
    rfl
  · simp [List.mem_append, List.mem_map]

/-- Witness for C10: a 200 response whose `response` field is `"{}"`. -/
theorem spec_c10_emptyObject_witness :
    resolvedTruthy envRef42 = true ∧
    (let w : World := ⟨"t", [], .resp 200 ("\x7b\"response\": \"\x7b\x7d\"\x7d")⟩
    Event.msg failureMsg ∈ scriptRun envRef42 w ∧
    (∀ b, Event.netPostComment b ∉ scriptRun envRef42 w) ∧
    (scriptRun envRef42 w).getLast? = some (.exitCode 0) ∧
    Event.uncaught ∉ scriptRun envRef42 w) :=
  ⟨by decide,
    spec_c10_emptyObject envRef42 ⟨"t", [], .resp 200 ("\x7b\"response\": \"\x7b\x7d\"\x7d")⟩
      200 ("\x7b\"response\": \"\x7b\x7d\"\x7d") ("\x7b\x7d")
      (by decide) rfl (by decide) rfl rfl⟩

/-- The backtick character (the code-fence marker). -/
def backtick : Char := Char.ofNat 96

theorem replaceFuel_head_not_mem (p : Char) (pt rep : List Char) :
    ∀ (f : Nat) (l : List Char), p ∉ l → replaceFuel f l (p :: pt) rep = l
  | 0, _, _ => rfl
  | _ + 1, [], _ => rfl
  | f + 1, x :: xs, h => by
    have hx : (p == x) = false := by
      simp only [beq_eq_false_iff_ne, ne_eq]
      intro e
      exact h (by simp [e])
    have ih := replaceFuel_head_not_mem p pt rep f xs
      (fun m => h (List.mem_cons_of_mem _ m))
    simp [replaceFuel, List.isPrefixOf, hx, ih]

theorem replaceFuel_skip (p : Char) (pt rep : List Char) :
    ∀ (l r : List Char), p ∉ l → ∀ (f : Nat),
      replaceFuel (l.length + f) (l ++ r) (p :: pt) rep =
        l ++ replaceFuel f r (p :: pt) rep
  | [], r, _, f => by simp
  | x :: xs, r, h, f => by
    have hx : (p == x) = false := by
      simp only [beq_eq_false_iff_ne, ne_eq]
      intro e
      exact h (by simp [e])
    have ih := replaceFuel_skip p pt rep xs r
      (fun m => h (List.mem_cons_of_mem _ m)) f
    rw [show (x :: xs).length + f = (xs.length + f) + 1 from by
      simp [List.length_cons]
      omega]
    rw [List.cons_append]
    simp [replaceFuel, List.isPrefixOf, hx, ih]

theorem replaceFuel_match (p : Char) (pt rep r : List Char) (f : Nat) :
    replaceFuel (f + 1) ((p :: pt) ++ r) (p :: pt) rep =
      rep ++ replaceFuel f r (p :: pt) rep := by
  rw [List.cons_append]
  have h1 : ((p :: pt).isPrefixOf (p :: (pt ++ r)) && !(p :: pt).isEmpty) = true := by
    rw [← List.cons_append]
    simp [isPrefixOf_append_self]
  simp only [replaceFuel, h1, if_true]
  congr 1
  rw [show List.drop (p :: pt).length (p :: (pt ++ r)) =
    List.drop (p :: pt).length ((p :: pt) ++ r) from by rw [List.cons_append]]
  rw [List.drop_left]

theorem trimChars_eq_self_of_ends (l : List Char)
    (hh : ∀ c, l.head? = some c → isPyWs c = false)
    (hl : ∀ c, l.getLast? = some c → isPyWs c = false) :
    trimChars l = l := by
  unfold trimChars
  have e1 : l.dropWhile isPyWs = l := by
    cases l with
    | nil => rfl
    | cons c cs => simp [List.dropWhile_cons, hh c rfl]
  rw [e1]
  have e2 : l.reverse.dropWhile isPyWs = l.reverse := by
    cases hr : l.reverse with
    | nil => rfl
    | cons d ds =>
      have hd : l.getLast? = some d := by
        rw [← List.head?_reverse, hr]
        rfl
      simp [List.dropWhile_cons, hl d hd]
  rw [e2, List.reverse_reverse]

/-- C5: for every model response text that is the fenced form
(```json ... ```) of a JSON text (a tidy JSON text: no stray backtick
and no outer whitespace), the fences are stripped before the text is
treated as JSON, parsing succeeds, and the parsed result equals the one
obtained from the unfenced equivalent text. -/
theorem spec_c5_fencedRoundTrip (t : String) (v : Json)
    (hb : backtick ∉ t.data) (ht : trimChars t.data = t.data)
    (hp : parseJson t = some v) :
    parseJson (cleanFences ("```json" ++ t ++ "```")) = some v ∧
    parseJson (cleanFences t) = some v := by
  have hjp : ("```json").data = backtick :: ("``json").data := by decide
  have htp : ("```").data = backtick :: ("``").data := by decide
  have hstrip : pyStrip t = t := by
    unfold pyStrip
    rw [ht]
    exact asString_of_data t
  have hr1 : pyReplace t ("```json") ("") = t := by
    unfold pyReplace
    rw [hjp, replaceFuel_head_not_mem backtick _ _ _ t.data hb]
    exact asString_of_data t
  have hr2 : pyReplace t ("```") ("") = t := by
    unfold pyReplace
    rw [htp, replaceFuel_head_not_mem backtick _ _ _ t.data hb]
    exact asString_of_data t
  have hclean_un : cleanFences t = t := by
    unfold cleanFences
    rw [hstrip, hr1, hr2]
  have hfd : ("```json" ++ t ++ "```").data =
      ("```json").data ++ (t.data ++ ("```").data) := by
    simp [data_append]
  have htrim : trimChars (("```json").data ++ (t.data ++ ("```").data)) =
      ("```json").data ++ (t.data ++ ("```").data) := by
    apply trimChars_eq_self_of_ends
    · intro c hc
      rw [hjp] at hc
      rw [List.cons_append] at hc
      simp only [List.head?_cons, Option.some.injEq] at hc
      rw [← hc]
      decide
    · intro c hc
      rw [List.getLast?_append_of_ne_nil _
        (List.append_ne_nil_of_right_ne_nil _ (by rw [htp]; exact List.cons_ne_nil _ _))] at hc
      rw [List.getLast?_append_of_ne_nil _
        (by rw [htp]; exact List.cons_ne_nil _ _)] at hc
      rw [htp] at hc
      simp only [show (backtick :: ("``").data).getLast? = some backtick from by decide,
        Option.some.injEq] at hc
      rw [← hc]
      decide
  have hlen1 : (("```json").data ++ (t.data ++ ("```").data)).length =
      t.data.length + 10 := by
    rw [hjp, htp]
    simp [List.length_append]
  have hrep1 : replaceFuel ((("```json").data ++ (t.data ++ ("```").data)).length + 1)
      (("```json").data ++ (t.data ++ ("```").data)) (("```json").data) (("").data) =
      t.data ++ ("```").data := by
    rw [hlen1, hjp]
    rw [show t.data.length + 10 + 1 = (t.data.length + 10) + 1 from rfl]
    rw [replaceFuel_match backtick _ _ _ (t.data.length + 10)]
    rw [show t.data.length + 10 = t.data.length + 10 from rfl]
    rw [replaceFuel_skip backtick _ _ t.data (("```").data) hb 10]
    rw [htp]
    rw [show replaceFuel 10 (backtick :: ("``").data)
      (backtick :: ("``json").data) (("").data) = backtick :: ("``").data from by decide]
    simp
  have hmid : pyReplace (pyStrip ("```json" ++ t ++ "```")) ("```json") ("") =
      asString (t.data ++ ("```").data) := by
    unfold pyStrip pyReplace
    rw [hfd, htrim, asString_data, hrep1]
  have hlen2 : (t.data ++ ("```").data).length = t.data.length + 3 := by
    rw [htp]
    simp [List.length_append]
  have hrep2 : replaceFuel ((t.data ++ ("```").data).length + 1)
      (t.data ++ ("```").data) (("```").data) (("").data) = t.data := by
    rw [hlen2, htp]
    rw [show t.data.length + 3 + 1 = t.data.length + 4 from rfl]
    rw [replaceFuel_skip backtick _ _ t.data (backtick :: ("``").data) hb 4]
    rw [show replaceFuel 4 (backtick :: ("``").data)
      (backtick :: ("``").data) (("").data) = [] from by decide]
    simp
  have hclean_f : cleanFences ("```json" ++ t ++ "```") = t := by
    unfold cleanFences
    rw [hmid]
    unfold pyReplace
    rw [asString_data, hrep2]
    exact asString_of_data t
  exact ⟨by rw [hclean_f]; exact hp, by rw [hclean_un]; exact hp⟩

/-- Witness for C5 on a small fenced review object. -/
theorem spec_c5_fencedRoundTrip_witness :
    (backtick ∉ ("\x7b\"summary\": \"ok\"\x7d").data ∧
      trimChars ("\x7b\"summary\": \"ok\"\x7d").data =
        ("\x7b\"summary\": \"ok\"\x7d").data ∧
      parseJson ("\x7b\"summary\": \"ok\"\x7d") =
        some (.obj [(("summary"), .str ("ok"))])) ∧
    parseJson (cleanFences ("```json" ++ "\x7b\"summary\": \"ok\"\x7d" ++ "```")) =
      some (.obj [(("summary"), .str ("ok"))]) ∧
    parseJson (cleanFences ("\x7b\"summary\": \"ok\"\x7d")) =
      some (.obj [(("summary"), .str ("ok"))]) :=
  ⟨⟨by decide, by decide, rfl⟩,
    spec_c5_fencedRoundTrip ("\x7b\"summary\": \"ok\"\x7d")
      (.obj [(("summary"), .str ("ok"))]) (by decide) (by decide) rfl⟩

theorem isPrefixOf_append_cons_eq (c : Char) :
    ∀ (pat a b : List Char), c ∉ pat →
      pat.isPrefixOf (a ++ c :: b) = pat.isPrefixOf a
  | [], a, b, _ => by simp [List.isPrefixOf]
  | p :: pt, [], b, h => by
    have hc : (p == c) = false := by
      simp only [beq_eq_false_iff_ne, ne_eq]
      intro e
      exact h (by simp [e])
    simp [List.isPrefixOf, hc]
  | p :: pt, x :: a, b, h => by
    have ih := isPrefixOf_append_cons_eq c pt a b (fun m => h (List.mem_cons_of_mem _ m))
    simp [List.isPrefixOf, ih]

theorem occCount_split (c : Char) (pat : List Char) (hne : pat ≠ []) (hc : c ∉ pat) :
    ∀ (a b : List Char), occCount (a ++ c :: b) pat = occCount a pat + occCount b pat
  | [], b => by
    have hemp : pat.isEmpty = false := by
      cases pat with
      | nil => exact absurd rfl hne
      | cons p pt => rfl
    have h1 : pat.isPrefixOf (c :: b) = false := by
      have h2 := isPrefixOf_append_cons_eq c pat [] b hc
      rw [List.nil_append] at h2
      rw [h2]
      cases pat with
      | nil => exact absurd rfl hne
      | cons p pt => simp [List.isPrefixOf]
    simp [occCount, h1, hemp]
  | x :: a, b => by
    have ih := occCount_split c pat hne hc a b
    have h2 : pat.isPrefixOf (x :: (a ++ c :: b)) = pat.isPrefixOf (x :: a) := by
      rw [← List.cons_append]
      exact isPrefixOf_append_cons_eq c pat (x :: a) b hc
    rw [List.cons_append]
    simp [occCount, ih, h2, Nat.add_assoc]

theorem occCount_head_skip (p : Char) (pt : List Char) :
    ∀ (a b : List Char), p ∉ a →
      occCount (a ++ b) (p :: pt) = occCount b (p :: pt)
  | [], b, _ => by simp
  | x :: a, b, h => by
    have hx : (p == x) = false := by
      simp only [beq_eq_false_iff_ne, ne_eq]
      intro e
      exact h (by simp [e])
    have ih := occCount_head_skip p pt a b (fun m => h (List.mem_cons_of_mem _ m))
    simp [occCount, List.isPrefixOf, hx, ih]

theorem isPrefixOf_append_eq_of_getLast (lc : Char) :
    ∀ (pat a b : List Char), pat.getLast? = some lc → lc ∉ b →
      pat.isPrefixOf (a ++ b) = pat.isPrefixOf a
  | [], a, b, hl, h => by simp [List.isPrefixOf]
  | p :: pt, [], b, hl, h => by
    rw [List.nil_append]
    have hmem : lc ∈ p :: pt := List.mem_of_getLast?_eq_some hl
    cases hb : (p :: pt).isPrefixOf b with
    | false => simp [List.isPrefixOf]
    | true =>
      exfalso
      have hpre : (p :: pt) <+: b := List.isPrefixOf_iff_prefix.mp hb
      exact h (hpre.subset hmem)
  | p :: pt, x :: a, b, hl, h => by
    cases pt with
    | nil => simp [List.isPrefixOf]
    | cons q pt' =>
      have hl' : (q :: pt').getLast? = some lc := by
        rw [← List.getLast?_cons_cons (a := p)]
        exact hl
      have ih := isPrefixOf_append_eq_of_getLast lc (q :: pt') a b hl' h
      simp [List.isPrefixOf, ih]

theorem occCount_eq_zero_of_not_mem (x : Char) :
    ∀ (l pat : List Char), x ∈ pat → x ∉ l → occCount l pat = 0
  | [], pat, hx, _ => by
    have hemp : pat.isEmpty = false := by
      cases pat with
      | nil => cases hx
      | cons p pt => rfl
    simp [occCount, hemp]
  | c :: cs, pat, hx, h => by
    have ih := occCount_eq_zero_of_not_mem x cs pat hx (fun m => h (List.mem_cons_of_mem _ m))
    have hpre : pat.isPrefixOf (c :: cs) = false := by
      cases hb : pat.isPrefixOf (c :: cs) with
      | false => rfl
      | true =>
        exfalso
        have hp : pat <+: (c :: cs) := List.isPrefixOf_iff_prefix.mp hb
        exact h (hp.subset hx)
    simp [occCount, hpre, ih]

theorem occCount_last_skip (lc : Char) (pat : List Char) (hl : pat.getLast? = some lc) :
    ∀ (a b : List Char), lc ∉ b → occCount (a ++ b) pat = occCount a pat
  | [], b, h => by
    rw [List.nil_append]
    have hmem := List.mem_of_getLast?_eq_some hl
    rw [occCount_eq_zero_of_not_mem lc b pat hmem h]
    have hemp : pat.isEmpty = false := by
      cases pat with
      | nil => cases hmem
      | cons p pt => rfl
    simp [occCount, hemp]
  | x :: a, b, h => by
    have ih := occCount_last_skip lc pat hl a b h
    have h2 : pat.isPrefixOf (x :: (a ++ b)) = pat.isPrefixOf (x :: a) := by
      rw [← List.cons_append]
      exact isPrefixOf_append_eq_of_getLast lc pat (x :: a) b hl h
    rw [List.cons_append]
    simp [occCount, h2, ih]

theorem occCount_itemsHtml (R : List Char) :
    ∀ (items : List Json), (∀ j ∈ items, occCount (pyStr j).data patNF = 0) →
      occCount ((itemsHtml items).data ++ R) patNF = occCount R patNF
  | [], _ => by
    rw [show (itemsHtml []).data = [] from rfl, List.nil_append]
  | j :: t, h => by
    have hjd := h j (by simp)
    have ih := occCount_itemsHtml R t (fun x hx => h x (by simp [hx]))
    have e : patNF = 'N' :: ("one found.").data := by decide
    rw [show (itemsHtml (j :: t)).data ++ R =
        ("<li>").data ++ ((pyStr j).data ++ ('<' :: (("/li>").data ++ ((itemsHtml t).data ++ R))))
      from by
        rw [show itemsHtml (j :: t) =
          "<li>" ++ pyStr j ++ "</li>" ++ itemsHtml t from rfl]
        simp [data_append, List.append_assoc]]
    rw [e, occCount_head_skip 'N' _ (("<li>").data) _ (by decide), ← e]
    rw [occCount_split '<' patNF (by decide) (by decide)]
    rw [hjd, Nat.zero_add]
    rw [e, occCount_head_skip 'N' _ (("/li>").data) _ (by decide), ← e]
    exact ih

theorem occ_pad (sd : List Char) (h : occCount sd patNF = 0) :
    occCount ([' '] ++ (sd ++ [' '])) patNF = 0 := by
  have e : patNF = 'N' :: ("one found.").data := by decide
  rw [e, occCount_head_skip 'N' _ [' '] _ (by decide), ← e]
  rw [occCount_last_skip '.' patNF (by decide) sd [' '] (by decide)]
  exact h

theorem occ_powered_tail (md : List Char) (h : occCount md patNF = 0) :
    occCount (("\n\n---\n*Review powered by ").data ++ (md ++ ("*").data)) patNF = 0 := by
  have e : patNF = 'N' :: ("one found.").data := by decide
  rw [e, occCount_head_skip 'N' _ (("\n\n---\n*Review powered by ").data) _ (by decide), ← e]
  rw [occCount_last_skip '.' patNF (by decide) md (("*").data) (by decide)]
  exact h

theorem reshape1 (X : List Char) :
    ("## 🤖 AI Code Review Summary\n\n| Field | Details |\n| :--- | :--- |\n| **Summary** | ").data ++ X =
    ("## 🤖 AI Code Review Summary\n\n| Field | Details |\n| :--- | :--- |\n| **Summary** ").data ++
      ('|' :: ([' '] ++ X)) := by
  rw [show ("## 🤖 AI Code Review Summary\n\n| Field | Details |\n| :--- | :--- |\n| **Summary** | ").data =
    ("## 🤖 AI Code Review Summary\n\n| Field | Details |\n| :--- | :--- |\n| **Summary** ").data ++
      ('|' :: [' ']) from by decide]
  simp [List.append_assoc]

theorem reshape2 (S X : List Char) :
    [' '] ++ (S ++ ((" |\n| **Security Risks** | <ul>").data ++ X)) =
    ([' '] ++ (S ++ [' '])) ++ ('|' :: (("\n| **Security Risks** | <ul>").data ++ X)) := by
  rw [show (" |\n| **Security Risks** | <ul>").data =
    ' ' :: ('|' :: ("\n| **Security Risks** | <ul>").data) from by decide]
  simp [List.append_assoc, List.cons_append]

theorem reshape3 (X : List Char) :
    ("\n| **Security Risks** | <ul>").data ++ X =
    ("\n| **Security Risks** ").data ++ ('|' :: ((" <ul>").data ++ X)) := by
  rw [show ("\n| **Security Risks** | <ul>").data =
    ("\n| **Security Risks** ").data ++ ('|' :: (" <ul>").data) from by decide]
  simp [List.append_assoc]

theorem reshape4 (X : List Char) :
    ("<li>None found.</li>").data ++ (("</ul> |\n| **Suggestions** | <ul>").data ++ X) =
    ("<li>None found.</li></ul> ").data ++
      ('|' :: (("\n| **Suggestions** | <ul>").data ++ X)) := by
  rw [show ("</ul> |\n| **Suggestions** | <ul>").data =
    ("</ul> ").data ++ ('|' :: ("\n| **Suggestions** | <ul>").data) from by decide]
  rw [show ("<li>None found.</li></ul> ").data =
    ("<li>None found.</li>").data ++ ("</ul> ").data from by decide]
  simp [List.append_assoc, List.cons_append]

theorem reshape5 (X : List Char) :
    ("\n| **Suggestions** | <ul>").data ++ X =
    ("\n| **Suggestions** ").data ++ ('|' :: ((" <ul>").data ++ X)) := by
  rw [show ("\n| **Suggestions** | <ul>").data =
    ("\n| **Suggestions** ").data ++ ('|' :: (" <ul>").data) from by decide]
  simp [List.append_assoc]

theorem reshape6 (X : List Char) :
    ("</ul> |\n\n---\n*Review powered by ").data ++ X =
    ("</ul> ").data ++ ('|' :: (("\n\n---\n*Review powered by ").data ++ X)) := by
  rw [show ("</ul> |\n\n---\n*Review powered by ").data =
    ("</ul> ").data ++ ('|' :: ("\n\n---\n*Review powered by ").data) from by decide]
  simp [List.append_assoc]

theorem occCount_commentBody (S M : String) (sugg : List Json)
    (hsum : occCount S.data patNF = 0)
    (hsugg : ∀ j ∈ sugg, occCount (pyStr j).data patNF = 0)
    (hmodel : occCount M.data patNF = 0) :
    occCount ("## 🤖 AI Code Review Summary\n\n| Field | Details |\n| :--- | :--- |\n| **Summary** | " ++
      S ++ " |\n| **Security Risks** | <ul>" ++ "<li>None found.</li>" ++
      "</ul> |\n| **Suggestions** | <ul>" ++ itemsHtml sugg ++
      "</ul> |\n\n---\n*Review powered by " ++ M ++ "*").data patNF = 1 := by
  have e : patNF = 'N' :: ("one found.").data := by decide
  simp only [data_append, List.append_assoc]
  rw [reshape1]
  rw [occCount_split '|' patNF (by decide) (by decide)]
  rw [show occCount
    (("## 🤖 AI Code Review Summary\n\n| Field | Details |\n| :--- | :--- |\n| **Summary** ").data)
    patNF = 0 from by decide, Nat.zero_add]
  rw [reshape2]
  rw [occCount_split '|' patNF (by decide) (by decide)]
  rw [occ_pad _ hsum, Nat.zero_add]
  rw [reshape3]
  rw [occCount_split '|' patNF (by decide) (by decide)]
  rw [show occCount (("\n| **Security Risks** ").data) patNF = 0 from by decide, Nat.zero_add]
  rw [e, occCount_head_skip 'N' _ ((" <ul>").data) _ (by decide), ← e]
  rw [reshape4]
  rw [occCount_split '|' patNF (by decide) (by decide)]
  rw [show occCount (("<li>None found.</li></ul> ").data) patNF = 1 from by decide]
  rw [reshape5]
  rw [occCount_split '|' patNF (by decide) (by decide)]
  rw [show occCount (("\n| **Suggestions** ").data) patNF = 0 from by decide, Nat.zero_add]
  rw [e, occCount_head_skip 'N' _ ((" <ul>").data) _ (by decide), ← e]
  rw [occCount_itemsHtml _ sugg hsugg]
  rw [reshape6]
  rw [occCount_split '|' patNF (by decide) (by decide)]
  rw [show occCount (("</ul> ").data) patNF = 0 from by decide, Nat.zero_add]
  rw [occ_powered_tail M.data hmodel]

/-- C9 amended: for every parsed result whose `security_risks` equals the
empty list, and whose rendered summary, rendered suggestion items, and
rendered model name do not themselves contain the placeholder text, the
formatted comment body contains "None found." exactly once. -/
theorem spec_c9_amended (m : Option String) (kvs : List (String × Json))
    (hrisks : pyGet kvs ("security_risks") = some (.arr []))
    (hsum : occCount (pyStr (summaryVal kvs)).data patNF = 0)
    (hsugg : ∀ j ∈ suggestionsList kvs, occCount (pyStr j).data patNF = 0)
    (hmodel : occCount (pyStrOpt m).data patNF = 0) :
    occCount (commentBody m kvs).data patNF = 1 := by
  have hrl : risksList kvs = [.str ("None found.")] := by
    unfold risksList
    rw [hrisks]
    rfl
  have hRH : itemsHtml (risksList kvs) = "<li>None found.</li>" := by
    rw [hrl]
    decide
  unfold commentBody
  rw [hRH]
  exact occCount_commentBody (pyStr (summaryVal kvs)) (pyStrOpt m)
    (suggestionsList kvs) hsum hsugg hmodel

/-- C9 as stated is false: when another field also carries the
placeholder text — here a summary equal to "None found." — the formatted
body contains the placeholder twice, not exactly once. -/
theorem spec_c9_counterexample :
    occCount (commentBody (some ("llama3"))
      [(("summary"), .str ("None found.")), (("security_risks"), .arr []),
        (("suggestions"), .arr [.str ("x")])]).data patNF = 2 ∧
    (2 : Nat) ≠ 1 :=
  ⟨by decide, by decide⟩

/-- Witness for the amended C9 at the spec's end-to-end example. -/
theorem spec_c9_amended_witness :
    (pyGet [(("summary"), Json.str ("Adds a null check")),
        (("security_risks"), Json.arr []),
        (("suggestions"), Json.arr [Json.str ("Add a unit test")])] ("security_risks") =
      some (.arr []) ∧
      occCount (pyStr (summaryVal [(("summary"), Json.str ("Adds a null check")),
        (("security_risks"), Json.arr []),
        (("suggestions"), Json.arr [Json.str ("Add a unit test")])])).data patNF = 0 ∧
      occCount (pyStrOpt (some ("llama3"))).data patNF = 0) ∧
    occCount (commentBody (some ("llama3"))
      [(("summary"), Json.str ("Adds a null check")),
        (("security_risks"), Json.arr []),
        (("suggestions"), Json.arr [Json.str ("Add a unit test")])]).data patNF = 1 :=
  ⟨⟨rfl, by decide, by decide⟩,
    spec_c9_amended (some ("llama3"))
      [(("summary"), Json.str ("Adds a null check")),
        (("security_risks"), Json.arr []),
        (("suggestions"), Json.arr [Json.str ("Add a unit test")])]
      rfl (by decide) (by decide) (by decide)⟩
